import Mathlib

/-!
Shallow embedding of `src/atom/renderer/atom_renderer_client.cc` (the Electron
renderer client): world selection (`ShouldNotifyClient`), the node-environment
lifecycle bridge (`AtomRendererClient::DidCreateScriptContext` /
`WillReleaseScriptContext`), the isolated-world bootstrap
(`CreateIsolatedWorldContext` / `SetupMainWorldOverrides`), the document
lifecycle hooks (`RunScriptsAtDocumentStart` / `RunScriptsAtDocumentEnd`) and
the navigation-fork predicate (`ShouldFork`).

Calls into the host engine and the embedded node runtime are recorded as an
explicit `Effect` trace; the mutable state of `AtomRendererClient`
(the `node_integration_initialized_` one-way latch, the `isolated_world_`
flag, the uv default environment held by `NodeBindings`, and the set of node
environments bound to live contexts, as observed through
`node::Environment::GetCurrent(context)`) is an explicit `ClientState` record
threaded through the callbacks.  Script contexts and environments are
identified by numeric handles (pointer identity in the source).
-/

namespace Atom

/-- Source enum `World`: the main world of a frame. `MAIN_WORLD = 0`. -/
def MAIN_WORLD : Int := 0

/-- Source enum `World`: the isolated world id, a high number far away from 0
to not collide with world ids created internally by Chrome.
`ISOLATED_WORLD = 999`. -/
def ISOLATED_WORLD : Int := 999

/-- Source enum `ExtensionGroup`: `MAIN_GROUP = 1`. -/
def MAIN_GROUP : Int := 1

/-- `base::CommandLine`: the process-wide command line, a set of switches,
each possibly carrying an ASCII value. -/
structure CommandLine where
  switches : List (String × String)
deriving DecidableEq, Repr

/-- `base::CommandLine::HasSwitch`. -/
def CommandLine.HasSwitch (cl : CommandLine) (name : String) : Bool :=
  cl.switches.any (fun p => p.1 == name)

/-- `base::CommandLine::GetSwitchValueASCII`: value of the first occurrence of
the switch, empty string when absent. -/
def CommandLine.GetSwitchValueASCII (cl : CommandLine) (name : String) : String :=
  ((cl.switches.find? (fun p => p.1 == name)).map Prod.snd).getD ""

namespace switches

/-- Modelled from the spec: switch name from `atom/common/options_switches.h`
(header not under `src/`); the spec names the flag `guest-instance-id`. -/
def kGuestInstanceID : String := "guest-instance-id"

/-- Modelled from the spec: the `opener-id` flag. -/
def kOpenerID : String := "opener-id"

/-- Modelled from the spec: the `hidden-page` boolean presence flag. -/
def kHiddenPage : String := "hidden-page"

/-- Modelled from the spec: the `context-isolation` boolean presence flag,
read once at construction. -/
def kContextIsolation : String := "context-isolation"

/-- Modelled from the spec: the `node-integration-in-worker` boolean presence
flag. -/
def kNodeIntegrationInWorker : String := "node-integration-in-worker"

end switches

namespace options

/-- Modelled from the spec: binding-object key for the guest instance id
(`atom/common/options_switches.h`, not under `src/`). The exact string is
immaterial to the claims; only that it is a fixed key distinct from the
others. -/
def kGuestInstanceID : String := "guestInstanceId"

/-- Modelled from the spec: binding-object key for the opener id. -/
def kOpenerID : String := "openerId"

end options

/-- The slice of `content::RenderFrame` the file reads: whether the frame is
the main (top-level) frame, and the scheme of the frame document's URL. -/
structure RenderFrame where
  isMainFrame : Bool
  documentURLScheme : String
deriving DecidableEq, Repr

/-- `render_frame->IsMainFrame()`. -/
def RenderFrame.IsMainFrame (f : RenderFrame) : Bool := f.isMainFrame

/-- `IsDevToolsExtension` (anonymous namespace): the frame document's URL
scheme is `chrome-extension`. -/
def IsDevToolsExtension (render_frame : RenderFrame) : Bool :=
  render_frame.documentURLScheme == "chrome-extension"

/-- `AtomRenderFrameObserver::IsMainWorld`. -/
def IsMainWorld (world_id : Int) : Bool := world_id == MAIN_WORLD

/-- `AtomRenderFrameObserver::IsIsolatedWorld`. -/
def IsIsolatedWorld (world_id : Int) : Bool := world_id == ISOLATED_WORLD

/-- `AtomRenderFrameObserver::ShouldNotifyClient`: in the source this reads
`renderer_client_->isolated_world()` and `render_frame_->IsMainFrame()`; both
are passed explicitly here. -/
def ShouldNotifyClient (isolated_world : Bool) (render_frame : RenderFrame)
    (world_id : Int) : Bool :=
  if isolated_world && render_frame.IsMainFrame then
    IsIsolatedWorld world_id
  else
    IsMainWorld world_id

/-- A value stored in a `mate::Dictionary` / v8 object by this file. -/
inductive V8Value where
  | str (s : String)
  | boolean (b : Bool)
deriving DecidableEq, Repr

/-- `mate::Dictionary::Set`: set a property on the underlying object,
replacing any previous value for the key. -/
def dictSet (d : List (String × V8Value)) (k : String) (v : V8Value) :
    List (String × V8Value) :=
  (d.filter (fun p => p.1 != k)) ++ [(k, v)]

/-- Property lookup on a dictionary built with `dictSet`. -/
def dictGet (d : List (String × V8Value)) (k : String) : Option V8Value :=
  (d.find? (fun p => p.1 == k)).map Prod.snd

/-- The CLI-flag section of `AtomRenderFrameObserver::SetupMainWorldOverrides`
(lines 97-106): the properties put on the `binding` object handed to the
bootstrap bundle. `api::Initialize`'s own opaque entries are modelled by the
separate `apiInitNullEnv` effect, not as dictionary entries. -/
def SetupMainWorldOverridesBinding (command_line : CommandLine) :
    List (String × V8Value) :=
  let d : List (String × V8Value) := []
  let d :=
    if command_line.HasSwitch switches.kGuestInstanceID then
      dictSet d options.kGuestInstanceID
        (V8Value.str (command_line.GetSwitchValueASCII switches.kGuestInstanceID))
    else d
  let d :=
    if command_line.HasSwitch switches.kOpenerID then
      dictSet d options.kOpenerID
        (V8Value.str (command_line.GetSwitchValueASCII switches.kOpenerID))
    else d
  dictSet d "hiddenPage"
    (V8Value.boolean (command_line.HasSwitch switches.kHiddenPage))

/-- One observable call into the host engine or the embedded node runtime.
Contexts and environments are numeric handles. -/
inductive Effect where
  /-- `node_bindings_->Initialize()` (the one-shot global node setup). -/
  | nodeBindingsSetup
  /-- `node_bindings_->PrepareMessageLoop()`. -/
  | prepareMessageLoop
  /-- `node_bindings_->CreateEnvironment(context)` returning `env`. -/
  | createEnvironment (ctx env : Nat)
  /-- `atom_bindings_->BindTo(env->isolate(), env->process_object())`. -/
  | bindTo (env : Nat)
  /-- `AddRenderBindings(env->isolate(), env->process_object())`. -/
  | addRenderBindings (env : Nat)
  /-- `node_bindings_->LoadEnvironment(env)`. -/
  | loadEnvironment (env : Nat)
  /-- `node_bindings_->RunMessageLoop()` (the one-shot event pump run). -/
  | runMessageLoop
  /-- `mate::EmitEvent(env->isolate(), env->process_object(), name)`. -/
  | emitEvent (env : Nat) (name : String)
  /-- `node::FreeEnvironment(env)`; `none` is a null `Environment*`. -/
  | freeEnvironment (env : Option Nat)
  /-- `atom_bindings_->EnvironmentDestroyed(env)`; `none` is null. -/
  | environmentDestroyed (env : Option Nat)
  /-- `frame->setIsolatedWorldHumanReadableName(world_id, name)`. -/
  | setIsolatedWorldHumanReadableName (world_id : Int) (name : String)
  /-- `frame->setIsolatedWorldSecurityOrigin(world_id, document origin)`. -/
  | setIsolatedWorldSecurityOrigin (world_id : Int)
  /-- `frame->executeScriptInIsolatedWorld(world_id, source, 1, group)`. -/
  | executeScriptInIsolatedWorld (world_id : Int) (src : String) (group : Int)
  /-- `api::Initialize(binding, v8::Null(isolate), context, nullptr)`:
  populate the binding object with a null environment. -/
  | apiInitNullEnv (ctx : Nat)
  /-- Compile the wrapped bootstrap bundle in context `ctx` and call the
  resulting function with the binding object as only argument. -/
  | callBundleFunction (ctx : Nat) (binding : List (String × V8Value))
  /-- `frame->executeScript(source)` in the frame's main world. -/
  | executeScript (src : String)
deriving DecidableEq, Repr

/-- The mutable state the file keeps across host callbacks:
`isolated_world_`, the one-way latch `node_integration_initialized_`
(field `nodeIntegrationDone` here, since the source spelling collides with a
reserved word of the development), the process command line, the node
environments currently bound to live contexts (what
`node::Environment::GetCurrent(context)` observes, as a context-handle ↦
environment-handle association list), a counter producing fresh environment
handles, and `node_bindings_->uv_env()` — the optional default
(event-loop-owning) environment. -/
structure ClientState where
  isolated_world : Bool
  nodeIntegrationDone : Bool
  cmdLine : CommandLine
  envs : List (Nat × Nat)
  nextEnvId : Nat
  uv_env : Option Nat
deriving DecidableEq, Repr

/-- `AtomRendererClient::AtomRendererClient`: latch false, no environments,
`isolated_world_ = command_line->HasSwitch(switches::kContextIsolation)`. -/
def initialClientState (command_line : CommandLine) : ClientState :=
  { isolated_world := command_line.HasSwitch switches.kContextIsolation
    nodeIntegrationDone := false
    cmdLine := command_line
    envs := []
    nextEnvId := 0
    uv_env := none }

/-- `node::Environment::GetCurrent(context)`: the environment bound to the
context, null (`none`) when there is none. -/
def EnvironmentGetCurrent (s : ClientState) (ctx : Nat) : Option Nat :=
  (s.envs.find? (fun p => p.1 == ctx)).map Prod.snd

/-- `AtomRendererClient::DidCreateScriptContext` (lines 218-249): guard on
main frame / devtools extension; one-shot node bootstrap behind the latch;
create the environment, bind extended APIs, load it; designate it default and
pump the loop once when no default exists. -/
def clientDidCreateScriptContext (s : ClientState) (ctx : Nat)
    (render_frame : RenderFrame) : ClientState × List Effect :=
  -- Only allow node integration for the main frame, unless it is a devtools
  -- extension page.
  if !render_frame.IsMainFrame && !IsDevToolsExtension render_frame then
    (s, [])
  else
    -- Prepare the node bindings (one-way latch).
    let s1 := if s.nodeIntegrationDone then s
              else { s with nodeIntegrationDone := true }
    let prepEffects : List Effect :=
      if s.nodeIntegrationDone then []
      else [Effect.nodeBindingsSetup, Effect.prepareMessageLoop]
    -- Setup node environment for each window.
    let env := s1.nextEnvId
    let s2 := { s1 with envs := s1.envs ++ [(ctx, env)],
                        nextEnvId := s1.nextEnvId + 1 }
    let envEffects : List Effect :=
      [Effect.createEnvironment ctx env, Effect.bindTo env,
       Effect.addRenderBindings env, Effect.loadEnvironment env]
    if s2.uv_env = none then
      -- Make uv loop being wrapped by window context, and give the node loop
      -- a run to make sure everything is ready.
      ({ s2 with uv_env := some env },
       prepEffects ++ envEffects ++ [Effect.runMessageLoop])
    else
      (s2, prepEffects ++ envEffects)

/-- `AtomRendererClient::WillReleaseScriptContext` (lines 251-269): same
guard; emit `"exit"` into the environment when one is bound; clear the
default designation when the released context's environment is the default;
`node::FreeEnvironment` and `EnvironmentDestroyed` are called
unconditionally, with a null environment when none is bound.  The released
context's binding is dropped from the registry (the environment is freed and
the context itself is being torn down by the host). -/
def clientWillReleaseScriptContext (s : ClientState) (ctx : Nat)
    (render_frame : RenderFrame) : ClientState × List Effect :=
  if !render_frame.IsMainFrame && !IsDevToolsExtension render_frame then
    (s, [])
  else
    let env := EnvironmentGetCurrent s ctx
    let exitEffects : List Effect :=
      match env with
      | some e => [Effect.emitEvent e "exit"]
      | none => []
    -- The main frame may be replaced.
    let s1 := if env = s.uv_env then { s with uv_env := none } else s
    -- Destroy the node environment.
    let s2 := { s1 with envs := s1.envs.filter (fun p => p.1 != ctx) }
    (s2, exitEffects ++
      [Effect.freeEnvironment env, Effect.environmentDestroyed env])

/-- `AtomRenderFrameObserver::CreateIsolatedWorldContext` (lines 61-78):
name the isolated world for the devtools console, copy the document's
security origin into it, and run `void 0` in it to create the initial
script context. -/
def CreateIsolatedWorldContext : List Effect :=
  [Effect.setIsolatedWorldHumanReadableName ISOLATED_WORLD
     "Electron Isolated Context",
   Effect.setIsolatedWorldSecurityOrigin ISOLATED_WORLD,
   Effect.executeScriptInIsolatedWorld ISOLATED_WORLD "void 0" MAIN_GROUP]

/-- `AtomRenderFrameObserver::SetupMainWorldOverrides` (lines 80-110): wrap
and compile the bootstrap bundle in the given (main-world) context, build the
binding object (`api::Initialize` with a null environment, then the CLI-flag
entries), and call the compiled function with it. -/
def SetupMainWorldOverrides (command_line : CommandLine) (ctx : Nat) :
    List Effect :=
  [Effect.apiInitNullEnv ctx,
   Effect.callBundleFunction ctx (SetupMainWorldOverridesBinding command_line)]

/-- `AtomRenderFrameObserver::DidCreateScriptContext` (lines 127-138):
forward to the client when `ShouldNotifyClient`, and run the isolated-world
bootstrap when isolated mode is on, the created world is the main world and
the frame is the main frame. -/
def observerDidCreateScriptContext (s : ClientState)
    (render_frame : RenderFrame) (ctx : Nat) (world_id : Int) :
    ClientState × List Effect :=
  let notified :=
    if ShouldNotifyClient s.isolated_world render_frame world_id then
      clientDidCreateScriptContext s ctx render_frame
    else (s, [])
  let bootstrapEffects : List Effect :=
    if s.isolated_world && IsMainWorld world_id && render_frame.IsMainFrame then
      CreateIsolatedWorldContext ++ SetupMainWorldOverrides s.cmdLine ctx
    else []
  (notified.1, notified.2 ++ bootstrapEffects)

/-- `AtomRenderFrameObserver::WillReleaseScriptContext` (lines 140-144). -/
def observerWillReleaseScriptContext (s : ClientState)
    (render_frame : RenderFrame) (ctx : Nat) (world_id : Int) :
    ClientState × List Effect :=
  if ShouldNotifyClient s.isolated_world render_frame world_id then
    clientWillReleaseScriptContext s ctx render_frame
  else (s, [])

/-- `AtomRendererClient::RunScriptsAtDocumentStart` (lines 198-206): emit
`"document-start"` into the default environment when one exists. -/
def RunScriptsAtDocumentStart (s : ClientState) : ClientState × List Effect :=
  match s.uv_env with
  | some env => (s, [Effect.emitEvent env "document-start"])
  | none => (s, [])

/-- `AtomRendererClient::RunScriptsAtDocumentEnd` (lines 208-216). -/
def RunScriptsAtDocumentEnd (s : ClientState) : ClientState × List Effect :=
  match s.uv_env with
  | some env => (s, [Effect.emitEvent env "document-end"])
  | none => (s, [])

/-- `AtomRendererClient::DidClearWindowObject` (lines 192-196): force a
script-context-created callback for every page. -/
def DidClearWindowObject : List Effect :=
  [Effect.executeScript "void 0"]

/-- `AtomRendererClient::ShouldFork` (lines 271-283): `*send_referrer = true`
always; fork (handle the navigation in the browser) only for `GET`.  Returned
as `(return value, send_referrer)`. -/
def ShouldFork (frame : RenderFrame) (url : String) (http_method : String)
    (is_initial_navigation : Bool) (is_server_redirect : Bool) : Bool × Bool :=
  (http_method == "GET", true)

/-- A host-engine callback relevant to the environment-lifecycle bridge, at
the frame-observer boundary. -/
inductive HostEvent where
  | contextCreated (render_frame : RenderFrame) (ctx : Nat) (world_id : Int)
  | contextReleased (render_frame : RenderFrame) (ctx : Nat) (world_id : Int)
  | documentStart
  | documentEnd
deriving DecidableEq, Repr

/-- Dispatch one host callback. -/
def step (s : ClientState) : HostEvent → ClientState × List Effect
  | HostEvent.contextCreated render_frame ctx world_id =>
      observerDidCreateScriptContext s render_frame ctx world_id
  | HostEvent.contextReleased render_frame ctx world_id =>
      observerWillReleaseScriptContext s render_frame ctx world_id
  | HostEvent.documentStart => RunScriptsAtDocumentStart s
  | HostEvent.documentEnd => RunScriptsAtDocumentEnd s

/-- Run a sequence of host callbacks, accumulating the effect trace. -/
def run (s : ClientState) : List HostEvent → ClientState × List Effect
  | [] => (s, [])
  | e :: es =>
      ((run (step s e).1 es).1, (step s e).2 ++ (run (step s e).1 es).2)

/-- A context-creation event that reaches the node-integration path: the
world selector forwards it (`ShouldNotifyClient`) and the client guard
(main frame or devtools extension) passes. -/
def qualifyingCreation (isolated_world : Bool) : HostEvent → Bool
  | HostEvent.contextCreated render_frame _ world_id =>
      ShouldNotifyClient isolated_world render_frame world_id &&
        (render_frame.IsMainFrame || IsDevToolsExtension render_frame)
  | _ => false

/-- Effects emitted only by the isolated-world bootstrap
(`CreateIsolatedWorldContext` / `SetupMainWorldOverrides`). -/
def isIsolatedBootstrapEffect : Effect → Bool
  | Effect.setIsolatedWorldHumanReadableName _ _ => true
  | Effect.setIsolatedWorldSecurityOrigin _ => true
  | Effect.executeScriptInIsolatedWorld _ _ _ => true
  | Effect.apiInitNullEnv _ => true
  | Effect.callBundleFunction _ _ => true
  | _ => false

/-- Number of one-shot node-bootstrap runs recorded in a trace. -/
def setupCount (efs : List Effect) : Nat := efs.count Effect.nodeBindingsSetup

/-- Number of `PrepareMessageLoop` calls recorded in a trace. -/
def prepCount (efs : List Effect) : Nat := efs.count Effect.prepareMessageLoop

/-- Number of synchronous event-pump runs recorded in a trace. -/
def pumpCount (efs : List Effect) : Nat := efs.count Effect.runMessageLoop

/-! Concrete frames, command lines and states used to witness the theorems on
explicit inputs. -/

/-- A top-level frame with an ordinary https document. -/
def mainFrameHttps : RenderFrame :=
  { isMainFrame := true, documentURLScheme := "https" }

/-- A subframe with an ordinary https document. -/
def subFrameHttps : RenderFrame :=
  { isMainFrame := false, documentURLScheme := "https" }

/-- A subframe hosting a `chrome-extension` document. -/
def subFrameExtension : RenderFrame :=
  { isMainFrame := false, documentURLScheme := "chrome-extension" }

/-- An empty command line. -/
def emptyCommandLine : CommandLine := ⟨[]⟩

/-- A command line with `--context-isolation`. -/
def isolatedCommandLine : CommandLine := ⟨[(switches.kContextIsolation, "")]⟩

/-- Fresh client state, isolated mode off. -/
def baseState : ClientState := initialClientState emptyCommandLine

/-- Fresh client state, isolated mode on. -/
def isolatedState : ClientState := initialClientState isolatedCommandLine

/-- A state in which context 7 holds the default environment 0 and the
bootstrap latch is already set. -/
def stateWithDefault : ClientState :=
  { isolated_world := false
    nodeIntegrationDone := true
    cmdLine := emptyCommandLine
    envs := [(7, 0)]
    nextEnvId := 1
    uv_env := some 0 }

/-- C3: for every combination of isolated-mode flag, frame main-ness and
world id, `ShouldNotifyClient` returns true iff: in isolated mode on the main
frame, `world_id = ISOLATED_WORLD`; in every other case,
`world_id = MAIN_WORLD`. -/
theorem shouldNotifyClient_spec (isolated_world : Bool)
    (render_frame : RenderFrame) (world_id : Int) :
    ShouldNotifyClient isolated_world render_frame world_id = true ↔
      (if isolated_world = true ∧ render_frame.IsMainFrame = true then
        world_id = ISOLATED_WORLD
      else
        world_id = MAIN_WORLD) := by
  unfold ShouldNotifyClient IsIsolatedWorld IsMainWorld RenderFrame.IsMainFrame
  cases isolated_world <;> cases h : render_frame.isMainFrame <;>
    simp [RenderFrame.IsMainFrame, h]

/-- C9: `ShouldFork` returns true iff the HTTP method is exactly `"GET"`, and
sets `send_referrer` to true in every case, whatever the frame, URL and
navigation flags. -/
theorem shouldFork_spec (frame : RenderFrame) (url http_method : String)
    (is_initial_navigation is_server_redirect : Bool) :
    ((ShouldFork frame url http_method
        is_initial_navigation is_server_redirect).1 = true ↔
      http_method = "GET") ∧
    (ShouldFork frame url http_method
        is_initial_navigation is_server_redirect).2 = true := by
  unfold ShouldFork
  simp

/-- C10: `RunScriptsAtDocumentStart` / `RunScriptsAtDocumentEnd` leave the
bridge state (latch, default designation, environment registry) unchanged,
and their entire effect trace is one `"document-start"` / `"document-end"`
emission into the default environment when one exists, and empty otherwise —
in particular they never create or destroy an environment. -/
theorem documentHooks_spec (s : ClientState) :
    (RunScriptsAtDocumentStart s).1 = s ∧
    (RunScriptsAtDocumentEnd s).1 = s ∧
    (RunScriptsAtDocumentStart s).2 =
      (match s.uv_env with
       | some env => [Effect.emitEvent env "document-start"]
       | none => []) ∧
    (RunScriptsAtDocumentEnd s).2 =
      (match s.uv_env with
       | some env => [Effect.emitEvent env "document-end"]
       | none => []) := by
  unfold RunScriptsAtDocumentStart RunScriptsAtDocumentEnd
  cases s.uv_env <;> simp

/-- C8: the binding object handed to the bootstrap bundle holds the
guest-instance-id key iff the `guest-instance-id` switch was supplied (with
the switch's string value), the opener-id key iff the `opener-id` switch was
supplied (with its string value), and always holds `hiddenPage` set to the
presence of the `hidden-page` switch. -/
theorem mainWorldOverridesBinding_spec (command_line : CommandLine) :
    dictGet (SetupMainWorldOverridesBinding command_line)
        options.kGuestInstanceID =
      (if command_line.HasSwitch switches.kGuestInstanceID then
        some (V8Value.str
          (command_line.GetSwitchValueASCII switches.kGuestInstanceID))
      else none) ∧
    dictGet (SetupMainWorldOverridesBinding command_line) options.kOpenerID =
      (if command_line.HasSwitch switches.kOpenerID then
        some (V8Value.str
          (command_line.GetSwitchValueASCII switches.kOpenerID))
      else none) ∧
    dictGet (SetupMainWorldOverridesBinding command_line) "hiddenPage" =
      some (V8Value.boolean
        (command_line.HasSwitch switches.kHiddenPage)) := by
  unfold SetupMainWorldOverridesBinding dictSet dictGet
  by_cases hg : command_line.HasSwitch switches.kGuestInstanceID <;>
    by_cases ho : command_line.HasSwitch switches.kOpenerID <;>
      simp [hg, ho, options.kGuestInstanceID, options.kOpenerID,
        List.find?]

/-- Filtering out bindings for a context that has none is the identity. -/
theorem envs_filter_of_no_binding (l : List (Nat × Nat)) (ctx : Nat)
    (h : l.find? (fun p => p.1 == ctx) = none) :
    l.filter (fun p => p.1 != ctx) = l := by
  rw [List.filter_eq_self]
  intro a ha
  have hne := List.find?_eq_none.mp h a ha
  simpa using hne

/-- C5: a notified context-creation event creates an environment (and binds
the extended APIs and loads its module program) iff the frame is the main
frame or its document's URL scheme is `chrome-extension`; for any other
non-main frame the event is a silent no-op: the state is unchanged and the
effect trace is empty. -/
theorem environmentCreationGuard_spec (s : ClientState) (ctx : Nat)
    (render_frame : RenderFrame) :
    ((Effect.createEnvironment ctx s.nextEnvId ∈
        (clientDidCreateScriptContext s ctx render_frame).2 ∧
      Effect.bindTo s.nextEnvId ∈
        (clientDidCreateScriptContext s ctx render_frame).2 ∧
      Effect.addRenderBindings s.nextEnvId ∈
        (clientDidCreateScriptContext s ctx render_frame).2 ∧
      Effect.loadEnvironment s.nextEnvId ∈
        (clientDidCreateScriptContext s ctx render_frame).2) ↔
      (render_frame.IsMainFrame = true ∨
        IsDevToolsExtension render_frame = true)) ∧
    (render_frame.IsMainFrame = false → IsDevToolsExtension render_frame = false →
      (clientDidCreateScriptContext s ctx render_frame).1 = s ∧
      (clientDidCreateScriptContext s ctx render_frame).2 = []) := by
  constructor
  · unfold clientDidCreateScriptContext
    cases hg : (!render_frame.IsMainFrame && !IsDevToolsExtension render_frame) with
    | true =>
      have hng : ¬(render_frame.IsMainFrame = true ∨
          IsDevToolsExtension render_frame = true) := by
        simp only [Bool.and_eq_true, Bool.not_eq_true'] at hg
        simp [hg.1, hg.2]
      simp [hg, hng]
    | false =>
      have hor : render_frame.IsMainFrame = true ∨
          IsDevToolsExtension render_frame = true := by
        rcases Bool.and_eq_false_iff.mp hg with h | h <;>
          simp at h <;> [exact Or.inl h; exact Or.inr h]
      by_cases hdone : s.nodeIntegrationDone <;>
        by_cases huv : s.uv_env = none <;>
          simp [hg, hdone, huv, hor]
  · intro h1 h2
    unfold clientDidCreateScriptContext
    simp [h1, h2]

/-- C6: a context-release event that passes the frame guard while no
environment is bound to the released context is a no-op: the state is
unchanged and no event is emitted (the trace holds only the two
null-environment teardown calls, which touch nothing). -/
theorem releaseNoEnvironment_noop (s : ClientState) (ctx : Nat)
    (render_frame : RenderFrame)
    (hguard : render_frame.IsMainFrame = true ∨
      IsDevToolsExtension render_frame = true)
    (hnone : EnvironmentGetCurrent s ctx = none) :
    (clientWillReleaseScriptContext s ctx render_frame).1 = s ∧
    (clientWillReleaseScriptContext s ctx render_frame).2 =
      [Effect.freeEnvironment none, Effect.environmentDestroyed none] := by
  have hfind : s.envs.find? (fun p => p.1 == ctx) = none := by
    unfold EnvironmentGetCurrent at hnone
    exact Option.map_eq_none.mp hnone
  have hfilter := envs_filter_of_no_binding s.envs ctx hfind
  have hg : (!render_frame.IsMainFrame && !IsDevToolsExtension render_frame)
      = false := by
    rcases hguard with h | h <;> simp [h]
  obtain ⟨iso, done, cl, envs, nid, uv⟩ := s
  unfold clientWillReleaseScriptContext
  simp only at hnone hfilter
  cases uv <;> simp [hg, hnone, hfilter]

/-- C7: on a release event that passes the frame guard, the
`node::FreeEnvironment` and `EnvironmentDestroyed` calls are made
unconditionally with the result of the environment lookup — a null handle
when no environment is bound — while the `"exit"` emission and the clearing
of the default designation are the only parts conditioned on that lookup. -/
theorem releaseCalls_unconditional (s : ClientState) (ctx : Nat)
    (render_frame : RenderFrame)
    (hguard : render_frame.IsMainFrame = true ∨
      IsDevToolsExtension render_frame = true) :
    (clientWillReleaseScriptContext s ctx render_frame).2 =
      (match EnvironmentGetCurrent s ctx with
       | some env => [Effect.emitEvent env "exit"]
       | none => []) ++
      [Effect.freeEnvironment (EnvironmentGetCurrent s ctx),
       Effect.environmentDestroyed (EnvironmentGetCurrent s ctx)] ∧
    (clientWillReleaseScriptContext s ctx render_frame).1.uv_env =
      (if EnvironmentGetCurrent s ctx = s.uv_env then none
       else s.uv_env) := by
  have hg : (!render_frame.IsMainFrame && !IsDevToolsExtension render_frame)
      = false := by
    rcases hguard with h | h <;> simp [h]
  unfold clientWillReleaseScriptContext
  rw [hg]
  refine ⟨by simp, ?_⟩
  by_cases he : EnvironmentGetCurrent s ctx = s.uv_env <;> simp [he]

/-- A failing `!a && !b` guard means `a || b` holds. -/
theorem guard_or_of_and_false {a b : Bool} (h : (!a && !b) = false) :
    (a || b) = true := by
  cases a <;> cases b <;> simp_all

/-- A passing `a ∨ b` disjunction refutes the `!a && !b` guard. -/
theorem guard_and_false_of_or {a b : Bool} (h : a = true ∨ b = true) :
    (!a && !b) = false := by
  rcases h with h | h <;> simp [h]

/-- The client context-creation path never emits an isolated-world bootstrap
effect. -/
theorem clientCreate_noBootstrapEffects (s : ClientState) (ctx : Nat)
    (render_frame : RenderFrame) :
    (clientDidCreateScriptContext s ctx render_frame).2.any
      isIsolatedBootstrapEffect = false := by
  unfold clientDidCreateScriptContext
  cases hg : (!render_frame.IsMainFrame && !IsDevToolsExtension render_frame) <;>
    by_cases hdone : s.nodeIntegrationDone <;>
      by_cases huv : s.uv_env = none <;>
        simp [hg, hdone, huv, isIsolatedBootstrapEffect]

/-- C4: the isolated-world bootstrap (naming the isolated context, copying
the document's security origin into it, priming it with `void 0`, and
compiling/running the bootstrap bundle in the main-world context) happens iff
isolated mode is enabled, the created world is the main world and the frame
is the main frame; under exactly that conjunction the client state is
untouched — in particular no environment is attached to the main-world
context — and the trace is precisely the bootstrap sequence. -/
theorem isolatedWorldBootstrap_spec (s : ClientState)
    (render_frame : RenderFrame) (ctx : Nat) (world_id : Int) :
    ((observerDidCreateScriptContext s render_frame ctx world_id).2.any
        isIsolatedBootstrapEffect
      = (s.isolated_world && IsMainWorld world_id &&
          render_frame.IsMainFrame)) ∧
    (s.isolated_world = true → render_frame.IsMainFrame = true →
      world_id = MAIN_WORLD →
      (observerDidCreateScriptContext s render_frame ctx world_id).1 = s ∧
      (observerDidCreateScriptContext s render_frame ctx world_id).2 =
        [Effect.setIsolatedWorldHumanReadableName ISOLATED_WORLD
           "Electron Isolated Context",
         Effect.setIsolatedWorldSecurityOrigin ISOLATED_WORLD,
         Effect.executeScriptInIsolatedWorld ISOLATED_WORLD "void 0"
           MAIN_GROUP,
         Effect.apiInitNullEnv ctx,
         Effect.callBundleFunction ctx
           (SetupMainWorldOverridesBinding s.cmdLine)]) := by
  constructor
  · unfold observerDidCreateScriptContext
    have hno := clientCreate_noBootstrapEffects s ctx render_frame
    cases hn : ShouldNotifyClient s.isolated_world render_frame world_id <;>
      cases hb : (s.isolated_world && IsMainWorld world_id &&
          render_frame.IsMainFrame) <;>
        simp [hn, hb, hno, CreateIsolatedWorldContext, SetupMainWorldOverrides,
          isIsolatedBootstrapEffect]
  · intro hiso hmain hw
    have hn : ShouldNotifyClient s.isolated_world render_frame world_id
        = false := by
      simp [ShouldNotifyClient, hiso, hmain, hw, IsIsolatedWorld,
        ISOLATED_WORLD, MAIN_WORLD, RenderFrame.IsMainFrame]
      intro h
      rw [RenderFrame.IsMainFrame] at hmain
      simp [hmain] at h
    have hb : (s.isolated_world && IsMainWorld world_id &&
        render_frame.IsMainFrame) = true := by
      simp [hiso, hmain, hw, IsMainWorld, MAIN_WORLD]
    unfold observerDidCreateScriptContext
    simp [hn, hb, CreateIsolatedWorldContext, SetupMainWorldOverrides]

/-- C1: the default (event-loop-owning) designation — structurally at most
one environment, as `uv_env` is a single optional handle.  (i) A notified and
guard-passing context creation finding no default designates the fresh
environment and runs the event pump exactly once; (ii) any context creation
while a default exists leaves the designation unchanged and never pumps;
(iii) releasing the context whose environment lookup matches the current
default clears the designation; (iv) once no environment is default, every
event that is not a qualifying creation leaves it that way. -/
theorem defaultEnvDesignation_spec (s : ClientState)
    (render_frame : RenderFrame) (ctx : Nat) (world_id : Int)
    (e : HostEvent) :
    (s.uv_env = none →
      ShouldNotifyClient s.isolated_world render_frame world_id = true →
      (render_frame.IsMainFrame = true ∨
        IsDevToolsExtension render_frame = true) →
      (observerDidCreateScriptContext s render_frame ctx world_id).1.uv_env
          = some s.nextEnvId ∧
      pumpCount
        (observerDidCreateScriptContext s render_frame ctx world_id).2
          = 1) ∧
    (s.uv_env ≠ none →
      (observerDidCreateScriptContext s render_frame ctx world_id).1.uv_env
          = s.uv_env ∧
      pumpCount
        (observerDidCreateScriptContext s render_frame ctx world_id).2
          = 0) ∧
    (ShouldNotifyClient s.isolated_world render_frame world_id = true →
      (render_frame.IsMainFrame = true ∨
        IsDevToolsExtension render_frame = true) →
      EnvironmentGetCurrent s ctx = s.uv_env →
      (observerWillReleaseScriptContext s render_frame ctx world_id).1.uv_env
          = none) ∧
    (s.uv_env = none → qualifyingCreation s.isolated_world e = false →
      (step s e).1.uv_env = none) := by
  refine ⟨?_, ?_, ?_, ?_⟩
  · intro h0 hn hor
    have hg := guard_and_false_of_or hor
    unfold observerDidCreateScriptContext clientDidCreateScriptContext
    rw [hn, hg]
    cases hb : (s.isolated_world && IsMainWorld world_id &&
        render_frame.IsMainFrame) <;>
      by_cases hdone : s.nodeIntegrationDone <;>
        simp [hb, hdone, h0, pumpCount, CreateIsolatedWorldContext,
          SetupMainWorldOverrides]
  · intro h0
    unfold observerDidCreateScriptContext clientDidCreateScriptContext
    cases hn : ShouldNotifyClient s.isolated_world render_frame world_id <;>
      cases hg : (!render_frame.IsMainFrame &&
          !IsDevToolsExtension render_frame) <;>
        cases hb : (s.isolated_world && IsMainWorld world_id &&
            render_frame.IsMainFrame) <;>
          by_cases hdone : s.nodeIntegrationDone <;>
            simp [hn, hg, hb, hdone, h0, pumpCount,
              CreateIsolatedWorldContext, SetupMainWorldOverrides]
  · intro hn hor he
    have hg := guard_and_false_of_or hor
    unfold observerWillReleaseScriptContext clientWillReleaseScriptContext
    rw [hn, hg]
    simp [he]
  · intro h0 hq
    cases e with
    | contextCreated f c w =>
      simp only [qualifyingCreation, Bool.and_eq_false_iff] at hq
      simp only [step]
      unfold observerDidCreateScriptContext clientDidCreateScriptContext
      rcases hq with hq | hq
      · cases hb : (s.isolated_world && IsMainWorld w && f.IsMainFrame) <;>
          simp [hq, hb, h0, CreateIsolatedWorldContext,
            SetupMainWorldOverrides]
      · have hg : (!f.IsMainFrame && !IsDevToolsExtension f) = true := by
          cases hm : f.IsMainFrame <;> cases hd : IsDevToolsExtension f <;>
            simp_all
        cases hn : ShouldNotifyClient s.isolated_world f w <;>
          cases hb : (s.isolated_world && IsMainWorld w && f.IsMainFrame) <;>
            simp [hn, hg, hb, h0, CreateIsolatedWorldContext,
              SetupMainWorldOverrides]
    | contextReleased f c w =>
      simp only [step]
      unfold observerWillReleaseScriptContext clientWillReleaseScriptContext
      cases hn : ShouldNotifyClient s.isolated_world f w <;>
        cases hg : (!f.IsMainFrame && !IsDevToolsExtension f) <;>
          cases henv : EnvironmentGetCurrent s c <;>
            simp [hn, hg, henv, h0]
    | documentStart =>
      simp only [step]
      unfold RunScriptsAtDocumentStart
      cases hu : s.uv_env <;> simp_all
    | documentEnd =>
      simp only [step]
      unfold RunScriptsAtDocumentEnd
      cases hu : s.uv_env <;> simp_all

/-- The client context-creation path: `isolated_world` and the command line
are read-only, and the latch becomes set exactly when the frame guard
passes. -/
theorem clientCreate_latch (s : ClientState) (ctx : Nat)
    (render_frame : RenderFrame) :
    (clientDidCreateScriptContext s ctx render_frame).1.isolated_world
        = s.isolated_world ∧
    (clientDidCreateScriptContext s ctx render_frame).1.nodeIntegrationDone
        = (s.nodeIntegrationDone ||
            (render_frame.IsMainFrame || IsDevToolsExtension render_frame)) ∧
    setupCount (clientDidCreateScriptContext s ctx render_frame).2
        = (if s.nodeIntegrationDone then 0
           else if render_frame.IsMainFrame || IsDevToolsExtension render_frame
             then 1 else 0) ∧
    prepCount (clientDidCreateScriptContext s ctx render_frame).2
        = (if s.nodeIntegrationDone then 0
           else if render_frame.IsMainFrame || IsDevToolsExtension render_frame
             then 1 else 0) := by
  unfold clientDidCreateScriptContext
  cases hg : (!render_frame.IsMainFrame && !IsDevToolsExtension render_frame)
  case true =>
    have hmd : render_frame.IsMainFrame = false ∧
        IsDevToolsExtension render_frame = false := by
      constructor <;> [skip; skip] <;>
        cases hm : render_frame.IsMainFrame <;>
          cases hd : IsDevToolsExtension render_frame <;> simp_all
    simp [hg, hmd.1, hmd.2, setupCount, prepCount]
  case false =>
    have hor := guard_or_of_and_false hg
    by_cases hdone : s.nodeIntegrationDone <;>
      by_cases huv : s.uv_env = none <;>
        simp [hg, hdone, huv, hor, setupCount, prepCount]

/-- The client context-release path: `isolated_world`, the command line and
the latch are untouched, and no bootstrap effect is emitted. -/
theorem clientRelease_latch (s : ClientState) (ctx : Nat)
    (render_frame : RenderFrame) :
    (clientWillReleaseScriptContext s ctx render_frame).1.isolated_world
        = s.isolated_world ∧
    (clientWillReleaseScriptContext s ctx render_frame).1.nodeIntegrationDone
        = s.nodeIntegrationDone ∧
    setupCount (clientWillReleaseScriptContext s ctx render_frame).2 = 0 ∧
    prepCount (clientWillReleaseScriptContext s ctx render_frame).2 = 0 := by
  unfold clientWillReleaseScriptContext
  cases hg : (!render_frame.IsMainFrame && !IsDevToolsExtension render_frame) <;>
    cases henv : EnvironmentGetCurrent s ctx <;>
      by_cases he : EnvironmentGetCurrent s ctx = s.uv_env <;>
        simp_all [setupCount, prepCount]

/-- One host callback: `isolated_world` is constant, the latch is one-way and
is set exactly by a qualifying creation, and the one-shot node bootstrap
(`Initialize` + `PrepareMessageLoop`) is emitted exactly when a qualifying
creation finds the latch unset. -/
theorem step_latch (s : ClientState) (e : HostEvent) :
    (step s e).1.isolated_world = s.isolated_world ∧
    (step s e).1.nodeIntegrationDone =
      (s.nodeIntegrationDone || qualifyingCreation s.isolated_world e) ∧
    setupCount (step s e).2 =
      (if s.nodeIntegrationDone then 0
       else if qualifyingCreation s.isolated_world e then 1 else 0) ∧
    prepCount (step s e).2 =
      (if s.nodeIntegrationDone then 0
       else if qualifyingCreation s.isolated_world e then 1 else 0) := by
  cases e with
  | contextCreated f c w =>
    simp only [step, qualifyingCreation]
    unfold observerDidCreateScriptContext
    obtain ⟨hc1, hc2, hc3, hc4⟩ := clientCreate_latch s c f
    by_cases hn : ShouldNotifyClient s.isolated_world f w = true <;>
      by_cases hb : (s.isolated_world && IsMainWorld w && f.IsMainFrame)
          = true <;>
        by_cases hdone : s.nodeIntegrationDone = true <;>
          simp_all [setupCount, prepCount, CreateIsolatedWorldContext,
            SetupMainWorldOverrides] <;>
          (split <;> simp)
  | contextReleased f c w =>
    simp only [step, qualifyingCreation]
    unfold observerWillReleaseScriptContext
    obtain ⟨hc1, hc2, hc3, hc4⟩ := clientRelease_latch s c f
    cases hn : ShouldNotifyClient s.isolated_world f w <;>
      simp_all [setupCount, prepCount]
  | documentStart =>
    simp only [step, qualifyingCreation]
    unfold RunScriptsAtDocumentStart
    cases hu : s.uv_env <;> simp [hu, setupCount, prepCount]
  | documentEnd =>
    simp only [step, qualifyingCreation]
    unfold RunScriptsAtDocumentEnd
    cases hu : s.uv_env <;> simp [hu, setupCount, prepCount]

/-- C2: across any sequence of host callbacks, the one-shot node bootstrap
(`node_bindings_->Initialize()` plus `PrepareMessageLoop()`) runs exactly
once when some qualifying creation occurs and the latch starts unset, never
when the latch is already set, and never more than once; and the latch is
one-way — after the run it equals its old value or-ed with whether a
qualifying creation occurred, so it is never reset. -/
theorem nodeBootstrapOnce_spec (s : ClientState) (evs : List HostEvent) :
    setupCount (run s evs).2 =
      (if s.nodeIntegrationDone then 0
       else if evs.any (qualifyingCreation s.isolated_world) then 1 else 0) ∧
    prepCount (run s evs).2 =
      (if s.nodeIntegrationDone then 0
       else if evs.any (qualifyingCreation s.isolated_world) then 1 else 0) ∧
    (run s evs).1.nodeIntegrationDone =
      (s.nodeIntegrationDone ||
        evs.any (qualifyingCreation s.isolated_world)) ∧
    setupCount (run s evs).2 ≤ 1 := by
  induction evs generalizing s with
  | nil => simp [run, setupCount, prepCount]
  | cons e es ih =>
    obtain ⟨hs1, hs2, hs3, hs4⟩ := step_latch s e
    obtain ⟨ih1, ih2, ih3, _⟩ := ih (step s e).1
    rw [hs1] at ih1 ih2 ih3
    rw [hs2] at ih1 ih2 ih3
    simp only [run, List.any_cons]
    have happ1 : setupCount ((step s e).2 ++ (run (step s e).1 es).2) =
        setupCount (step s e).2 + setupCount (run (step s e).1 es).2 :=
      List.count_append _ _ _
    have happ2 : prepCount ((step s e).2 ++ (run (step s e).1 es).2) =
        prepCount (step s e).2 + prepCount (run (step s e).1 es).2 :=
      List.count_append _ _ _
    rw [happ1, happ2, hs3, hs4, ih1, ih2, ih3]
    by_cases hd : s.nodeIntegrationDone = true <;>
      by_cases hq : qualifyingCreation s.isolated_world e = true <;>
        by_cases ha : es.any (qualifyingCreation s.isolated_world) = true <;>
          simp [hd, hq, ha]

/-- Witness for C1 at concrete inputs: a fresh state designates environment 0
default and pumps once; a state with a default keeps it on a later creation;
releasing the default's context clears it; a document-start event keeps the
designation empty. -/
theorem defaultEnvDesignation_spec_witness :
    ((observerDidCreateScriptContext baseState mainFrameHttps 7
        MAIN_WORLD).1.uv_env = some baseState.nextEnvId ∧
      pumpCount (observerDidCreateScriptContext baseState mainFrameHttps 7
        MAIN_WORLD).2 = 1) ∧
    ((observerDidCreateScriptContext stateWithDefault mainFrameHttps 8
        MAIN_WORLD).1.uv_env = stateWithDefault.uv_env ∧
      pumpCount (observerDidCreateScriptContext stateWithDefault
        mainFrameHttps 8 MAIN_WORLD).2 = 0) ∧
    (observerWillReleaseScriptContext stateWithDefault mainFrameHttps 7
        MAIN_WORLD).1.uv_env = none ∧
    (step baseState HostEvent.documentStart).1.uv_env = none := by
  refine ⟨?_, ?_, ?_, ?_⟩
  · exact (defaultEnvDesignation_spec baseState mainFrameHttps 7 MAIN_WORLD
      HostEvent.documentStart).1 (by decide) (by decide) (Or.inl (by decide))
  · exact (defaultEnvDesignation_spec stateWithDefault mainFrameHttps 8
      MAIN_WORLD HostEvent.documentStart).2.1 (by decide)
  · exact (defaultEnvDesignation_spec stateWithDefault mainFrameHttps 7
      MAIN_WORLD HostEvent.documentStart).2.2.1 (by decide) (Or.inl (by decide))
      (by decide)
  · exact (defaultEnvDesignation_spec baseState mainFrameHttps 7 MAIN_WORLD
      HostEvent.documentStart).2.2.2 (by decide) (by decide)

/-- Witness for C4 at a concrete input: isolated mode, main frame, main
world — state untouched, trace is exactly the bootstrap sequence. -/
theorem isolatedWorldBootstrap_spec_witness :
    (observerDidCreateScriptContext isolatedState mainFrameHttps 7
        MAIN_WORLD).1 = isolatedState ∧
    (observerDidCreateScriptContext isolatedState mainFrameHttps 7
        MAIN_WORLD).2 =
      [Effect.setIsolatedWorldHumanReadableName ISOLATED_WORLD
         "Electron Isolated Context",
       Effect.setIsolatedWorldSecurityOrigin ISOLATED_WORLD,
       Effect.executeScriptInIsolatedWorld ISOLATED_WORLD "void 0" MAIN_GROUP,
       Effect.apiInitNullEnv 7,
       Effect.callBundleFunction 7
         (SetupMainWorldOverridesBinding isolatedState.cmdLine)] :=
  (isolatedWorldBootstrap_spec isolatedState mainFrameHttps 7 MAIN_WORLD).2
    (by decide) (by decide) (by decide)

/-- Witness for C5 at concrete inputs: a `chrome-extension` subframe gets an
environment; an ordinary https subframe is a silent no-op. -/
theorem environmentCreationGuard_spec_witness :
    (Effect.createEnvironment 9 baseState.nextEnvId ∈
        (clientDidCreateScriptContext baseState 9 subFrameExtension).2 ∧
      Effect.bindTo baseState.nextEnvId ∈
        (clientDidCreateScriptContext baseState 9 subFrameExtension).2 ∧
      Effect.addRenderBindings baseState.nextEnvId ∈
        (clientDidCreateScriptContext baseState 9 subFrameExtension).2 ∧
      Effect.loadEnvironment baseState.nextEnvId ∈
        (clientDidCreateScriptContext baseState 9 subFrameExtension).2) ∧
    (clientDidCreateScriptContext baseState 9 subFrameHttps).1 = baseState ∧
    (clientDidCreateScriptContext baseState 9 subFrameHttps).2 = [] := by
  refine ⟨?_, ?_⟩
  · exact (environmentCreationGuard_spec baseState 9 subFrameExtension).1.mpr
      (Or.inr (by decide))
  · exact (environmentCreationGuard_spec baseState 9 subFrameHttps).2
      (by decide) (by decide)

/-- Witness for C6 at a concrete input: releasing context 3, to which no
environment is bound, out of a fresh state changes nothing and emits
nothing. -/
theorem releaseNoEnvironment_noop_witness :
    (clientWillReleaseScriptContext baseState 3 mainFrameHttps).1
        = baseState ∧
    (clientWillReleaseScriptContext baseState 3 mainFrameHttps).2 =
      [Effect.freeEnvironment none, Effect.environmentDestroyed none] :=
  releaseNoEnvironment_noop baseState 3 mainFrameHttps (Or.inl (by decide))
    (by decide)

/-- Witness for C7 at a concrete input: releasing context 7 of
`stateWithDefault` emits `"exit"` into environment 0, frees it, notifies the
registry, and clears the default designation. -/
theorem releaseCalls_unconditional_witness :
    (clientWillReleaseScriptContext stateWithDefault 7 mainFrameHttps).2 =
      (match EnvironmentGetCurrent stateWithDefault 7 with
       | some env => [Effect.emitEvent env "exit"]
       | none => []) ++
      [Effect.freeEnvironment (EnvironmentGetCurrent stateWithDefault 7),
       Effect.environmentDestroyed (EnvironmentGetCurrent stateWithDefault 7)] ∧
    (clientWillReleaseScriptContext stateWithDefault 7
        mainFrameHttps).1.uv_env =
      (if EnvironmentGetCurrent stateWithDefault 7 = stateWithDefault.uv_env
       then none else stateWithDefault.uv_env) :=
  releaseCalls_unconditional stateWithDefault 7 mainFrameHttps
    (Or.inl (by decide))

end Atom
